import Mathlib

/-!
Verification of the wind-turbine power-curve engine.

The repository has two energy-calculation functions, both named
`calculate_energy` in Python:

* `src/main.py` (three-region curve, fixed one-hour sampling interval),
  embedded here as `Main.power_output` / `Main.calculate_energy`;
* `src/test_turbine.py` (five-region curve with a peak-power plateau,
  sampling interval `1 / len(wind_speeds)`, result divided by 1000),
  embedded here as `Test.power_output` / `Test.calculate_energy`.

Real-number arithmetic of the source is modelled exactly over `ℚ`.
The expression `1 / len(wind_speeds)` in `src/test_turbine.py` raises
`ZeroDivisionError` when the series is empty, before the loop runs; the
embedding returns `Option`, with `none` for that error.

An operational embedding of the per-sample loop (`LoopState`, `execLoop`)
keeps the input series inside the mutable loop state, so that absence of
mutation is a provable statement rather than an artifact of the embedding.
-/

namespace WindTurbine

/-- Per-sample power of the three-region curve in `src/main.py`
(lines 59-67): zero below the cut-in speed, cubic ramp between cut-in
and rated speed, flat rated power up to the cut-out speed, zero above. -/
def Main.power_output (start_speed rated_speed max_speed rated_power speed : ℚ) : ℚ :=
  if speed < start_speed then 0
  else if start_speed ≤ speed ∧ speed < rated_speed then
    rated_power * ((speed - start_speed) / (rated_speed - start_speed)) ^ 3
  else if rated_speed ≤ speed ∧ speed ≤ max_speed then
    rated_power
  else 0

/-- The `calculate_energy` function of `src/main.py` (lines 55-72):
per-sample energy is `power_output * 1` (one hour per sample), total
energy is the sum; returns `(total_energy, power_generation)`. -/
def Main.calculate_energy (wind_speeds : List ℚ)
    (start_speed rated_speed max_speed rated_power : ℚ) : ℚ × List ℚ :=
  let power_generation :=
    wind_speeds.map (Main.power_output start_speed rated_speed max_speed rated_power)
  let energy := power_generation.map (fun p => p * 1)
  (energy.sum, power_generation)

/-- Per-sample power of the five-region curve in `src/test_turbine.py`
(lines 10-25): zero below cut-in, cubic ramp (scaled by `peak_power`)
between cut-in and rated speed, flat `peak_power` from rated speed to the
peak-power speed, linear decline toward `rated_power` up to the cut-out
speed, zero above. -/
def Test.power_output
    (start_speed rated_speed max_speed rated_power peak_power peak_power_speed speed : ℚ) : ℚ :=
  if speed < start_speed then 0
  else if start_speed ≤ speed ∧ speed < rated_speed then
    peak_power * ((speed - start_speed) / (rated_speed - start_speed)) ^ 3
  else if rated_speed ≤ speed ∧ speed ≤ peak_power_speed then
    peak_power
  else if peak_power_speed < speed ∧ speed ≤ max_speed then
    peak_power -
      ((speed - peak_power_speed) / (max_speed - peak_power_speed)) *
        (peak_power - rated_power)
  else 0

/-- The `calculate_energy` function of `src/test_turbine.py` (lines 4-31):
`time_interval = 1 / len(wind_speeds)` (this raises `ZeroDivisionError`
on an empty series, modelled as `none`), energy accumulates
`power_output * time_interval`, and the returned total is `energy / 1000`
(conversion to kWh). Returns `some (total_energy, power_generation)`. -/
def Test.calculate_energy (wind_speeds : List ℚ)
    (start_speed rated_speed max_speed rated_power peak_power peak_power_speed : ℚ) :
    Option (ℚ × List ℚ) :=
  if wind_speeds.length = 0 then none
  else
    let time_interval : ℚ := 1 / (wind_speeds.length : ℚ)
    let power_generation :=
      wind_speeds.map
        (Test.power_output start_speed rated_speed max_speed rated_power
          peak_power peak_power_speed)
    let energy := (power_generation.map (fun p => p * time_interval)).sum
    some (energy / 1000, power_generation)

/-- State of the per-sample loop: the input array as held in memory, the
position of the iterator, and the two accumulators built by the loop body. -/
structure LoopState where
  wind_speeds : List ℚ
  idx : Nat
  power_generation : List ℚ
  energy : ℚ
deriving Repr, DecidableEq

/-- Operational embedding of the `for speed in wind_speeds` loop shared by
both `calculate_energy` variants, parameterized by the per-sample power
function and the time interval: each step reads the current sample,
appends its power to `power_generation` and adds `power * time_interval`
to `energy`. The input series stays inside the state, so mutation of it
would be observable. -/
def execLoop (pow : ℚ → ℚ) (ti : ℚ) : Nat → LoopState → LoopState
  | 0, st => st
  | n + 1, st =>
    match st.wind_speeds[st.idx]? with
    | none => st
    | some speed =>
      execLoop pow ti n
        ⟨st.wind_speeds, st.idx + 1,
         st.power_generation ++ [pow speed],
         st.energy + pow speed * ti⟩

lemma execLoop_invariant (pow : ℚ → ℚ) (ti : ℚ) (ws : List ℚ) :
    ∀ n k acc e, k + n = ws.length →
      execLoop pow ti n ⟨ws, k, acc, e⟩ =
        ⟨ws, ws.length, acc ++ (ws.drop k).map pow,
         e + (((ws.drop k).map pow).map (fun p => p * ti)).sum⟩ := by
  intro n
  induction n with
  | zero =>
    intro k acc e h
    have hk : k = ws.length := by omega
    subst hk
    simp [execLoop, List.drop_length]
  | succ n ih =>
    intro k acc e h
    have hk : k < ws.length := by omega
    have hstep :
        execLoop pow ti (n + 1) ⟨ws, k, acc, e⟩ =
          execLoop pow ti n
            ⟨ws, k + 1, acc ++ [pow ws[k]],
             e + pow ws[k] * ti⟩ := by
      simp only [execLoop]
      rw [List.getElem?_eq_getElem hk]
    rw [hstep, ih (k + 1) _ _ (by omega)]
    have hdrop : ws.drop k = ws[k] :: ws.drop (k + 1) :=
      List.drop_eq_getElem_cons hk
    rw [hdrop]
    simp only [List.map_cons, List.sum_cons, List.append_assoc,
      List.singleton_append, add_assoc]

/-- Claim C2, counterexample: on the empty wind-speed series the
`src/test_turbine.py` variant does not return an empty power series with
zero total energy; it fails (ZeroDivisionError from `1 / len(wind_speeds)`,
modelled as `none`). -/
theorem C2_counterexample :
    Test.calculate_energy [] 3 10 25 10000 14000 15 = none ∧
    Test.calculate_energy [] 3 10 25 10000 14000 15 ≠ some (0, []) := by
  exact ⟨rfl, by simp [Test.calculate_energy]⟩

/-- Claim C2, amended: on the empty series the `src/main.py` variant
returns zero total energy and an empty power series for every profile,
while the `src/test_turbine.py` variant raises ZeroDivisionError
(modelled as `none`) for every profile. -/
theorem C2_empty_input (ss rs ms rp pp pps : ℚ) :
    Main.calculate_energy [] ss rs ms rp = (0, []) ∧
    Test.calculate_energy [] ss rs ms rp pp pps = none := by
  exact ⟨rfl, rfl⟩

/-- Claim C3, counterexample: with `rated_speed == start_speed` (here both
5) neither variant signals any error; both return a fully processed,
well-defined result for the sample 6. -/
theorem C3_counterexample :
    Main.calculate_energy [6] 5 5 10 7 = (7, [7]) ∧
    Test.calculate_energy [6] 5 5 10 8 9 7 = some (9 / 1000, [9]) := by
  constructor
  · norm_num [Main.calculate_energy, Main.power_output]
  · norm_num [Test.calculate_energy, Test.power_output]

/-- Claim C3, amended: with `rated_speed == start_speed` no
ConfigurationError is signalled (no such error exists in the code) and no
NaN/Inf arises either: the cubic-ramp guard `start_speed <= speed <
rated_speed` is unsatisfiable, so its division by zero is never executed,
and every sample falls into a remaining region, giving a total,
well-defined power curve in both variants. -/
theorem C3_degenerate_profile_no_error (ss ms rp pp pps s : ℚ) :
    Main.power_output ss ss ms rp s =
      (if s < ss then 0 else if s ≤ ms then rp else 0) ∧
    Test.power_output ss ss ms rp pp pps s =
      (if s < ss then 0
       else if s ≤ pps then pp
       else if s ≤ ms then
         pp - ((s - pps) / (ms - pps)) * (pp - rp)
       else 0) := by
  constructor
  · unfold Main.power_output
    by_cases h1 : s < ss
    · simp [h1]
    · have hss : ss ≤ s := le_of_not_lt h1
      have h2 : ¬(ss ≤ s ∧ s < ss) := by rintro ⟨_, hb⟩; exact h1 hb
      by_cases h3 : s ≤ ms
      · simp [h1, h2, hss, h3]
      · simp [h1, h2, h3]
  · unfold Test.power_output
    by_cases h1 : s < ss
    · simp [h1]
    · have hss : ss ≤ s := le_of_not_lt h1
      have h2 : ¬(ss ≤ s ∧ s < ss) := by rintro ⟨_, hb⟩; exact h1 hb
      by_cases h3 : s ≤ pps
      · simp [h1, h2, hss, h3]
      · have h4 : pps < s := lt_of_not_le h3
        by_cases h5 : s ≤ ms
        · simp [h1, h2, h3, h4, h5]
        · simp [h1, h2, h3, h4, h5]

/-- Claim C4, confirmed: in the three-region variant, for a profile with
`start_speed < rated_speed <= max_speed`, a speed in the ramp region
yields exactly the normalized cubic-ramp formula, and a speed in
`[rated_speed, max_speed]` yields exactly `rated_power` (so the output at
`rated_speed` itself is exactly `rated_power`). -/
theorem C4_three_region_formula (ss rs ms rp s : ℚ)
    (h1 : ss < rs) (h2 : rs ≤ ms) :
    (ss ≤ s ∧ s < rs →
      Main.power_output ss rs ms rp s = rp * ((s - ss) / (rs - ss)) ^ 3) ∧
    (rs ≤ s ∧ s ≤ ms → Main.power_output ss rs ms rp s = rp) := by
  constructor
  · rintro ⟨ha, hb⟩
    unfold Main.power_output
    rw [if_neg (not_lt.mpr ha), if_pos ⟨ha, hb⟩]
  · rintro ⟨ha, hb⟩
    unfold Main.power_output
    rw [if_neg (by push_neg; linarith), if_neg (by rintro ⟨_, hc⟩; linarith),
      if_pos ⟨ha, hb⟩]

/-- Claim C4, witness at the documented profile (3, 10, 25, 10000): the
ramp value at speed 6 and the plateau value at the boundary speed 10. -/
theorem C4_witness :
    Main.power_output 3 10 25 10000 6 = 10000 * ((6 - 3) / (10 - 3)) ^ 3 ∧
    Main.power_output 3 10 25 10000 10 = 10000 := by
  constructor
  · exact (C4_three_region_formula 3 10 25 10000 6 (by norm_num)
      (by norm_num)).1 ⟨by norm_num, by norm_num⟩
  · exact (C4_three_region_formula 3 10 25 10000 10 (by norm_num)
      (by norm_num)).2 ⟨by norm_num, by norm_num⟩

/-- Claim C5, confirmed: in the five-region variant, for a profile with
`start_speed < rated_speed < peak_power_speed < max_speed`, speeds in
`[rated_speed, peak_power_speed]` yield exactly `peak_power`, speeds in
`(peak_power_speed, max_speed]` yield exactly the linear-decline formula,
and the decline reaches `rated_power` exactly at `max_speed`. -/
theorem C5_peak_variant_formula (ss rs ms rp pp pps s : ℚ)
    (h1 : ss < rs) (h2 : rs < pps) (h3 : pps < ms) :
    (rs ≤ s ∧ s ≤ pps → Test.power_output ss rs ms rp pp pps s = pp) ∧
    (pps < s ∧ s ≤ ms →
      Test.power_output ss rs ms rp pp pps s =
        pp - ((s - pps) / (ms - pps)) * (pp - rp)) ∧
    Test.power_output ss rs ms rp pp pps ms = rp := by
  refine ⟨?_, ?_, ?_⟩
  · rintro ⟨ha, hb⟩
    unfold Test.power_output
    rw [if_neg (by push_neg; linarith), if_neg (by rintro ⟨_, hc⟩; linarith),
      if_pos ⟨ha, hb⟩]
  · rintro ⟨ha, hb⟩
    unfold Test.power_output
    rw [if_neg (by push_neg; linarith), if_neg (by rintro ⟨_, hc⟩; linarith),
      if_neg (by rintro ⟨_, hc⟩; linarith), if_pos ⟨ha, hb⟩]
  · have hd : Test.power_output ss rs ms rp pp pps ms =
        pp - ((ms - pps) / (ms - pps)) * (pp - rp) := by
      unfold Test.power_output
      rw [if_neg (by push_neg; linarith), if_neg (by rintro ⟨_, hc⟩; linarith),
        if_neg (by rintro ⟨_, hc⟩; linarith), if_pos ⟨h3, le_refl ms⟩]
    rw [hd, div_self (sub_ne_zero_of_ne (ne_of_gt h3))]
    ring

/-- Claim C5, witness at scenario B (3, 10, 15, 25, rated 10000, peak
14000): plateau value at speed 12, decline value at speed 20, and the
exact floor `rated_power` at the cut-out speed 25. -/
theorem C5_witness :
    Test.power_output 3 10 25 10000 14000 15 12 = 14000 ∧
    Test.power_output 3 10 25 10000 14000 15 20 =
      14000 - ((20 - 15) / (25 - 15)) * (14000 - 10000) ∧
    Test.power_output 3 10 25 10000 14000 15 25 = 10000 := by
  refine ⟨?_, ?_, ?_⟩
  · exact (C5_peak_variant_formula 3 10 25 10000 14000 15 12 (by norm_num)
      (by norm_num) (by norm_num)).1 ⟨by norm_num, by norm_num⟩
  · exact (C5_peak_variant_formula 3 10 25 10000 14000 15 20 (by norm_num)
      (by norm_num) (by norm_num)).2.1 ⟨by norm_num, by norm_num⟩
  · exact (C5_peak_variant_formula 3 10 25 10000 14000 15 25 (by norm_num)
      (by norm_num) (by norm_num)).2.2

/-- Claim C6, confirmed: in both variants, a speed above `max_speed`
yields zero power and a speed below `start_speed` yields zero power, for
any profile with `start_speed < rated_speed <= max_speed` (and, in the
peak-power variant, `rated_speed <= peak_power_speed <= max_speed`). -/
theorem C6_cutoff_zero (ss rs ms rp pp pps s : ℚ)
    (h1 : ss < rs) (h2 : rs ≤ ms) (h3 : rs ≤ pps) (h4 : pps ≤ ms) :
    (ms < s → Main.power_output ss rs ms rp s = 0) ∧
    (s < ss → Main.power_output ss rs ms rp s = 0) ∧
    (ms < s → Test.power_output ss rs ms rp pp pps s = 0) ∧
    (s < ss → Test.power_output ss rs ms rp pp pps s = 0) := by
  refine ⟨?_, ?_, ?_, ?_⟩
  · intro hs
    unfold Main.power_output
    rw [if_neg (by push_neg; linarith), if_neg (by rintro ⟨_, hc⟩; linarith),
      if_neg (by rintro ⟨_, hc⟩; linarith)]
  · intro hs
    unfold Main.power_output
    rw [if_pos hs]
  · intro hs
    unfold Test.power_output
    rw [if_neg (by push_neg; linarith), if_neg (by rintro ⟨_, hc⟩; linarith),
      if_neg (by rintro ⟨_, hc⟩; linarith), if_neg (by rintro ⟨_, hc⟩; linarith)]
  · intro hs
    unfold Test.power_output
    rw [if_pos hs]

/-- Claim C6, witness: at the scenario profiles, speed 30 (above cut-out)
gives zero and speed 1 (below cut-in) gives zero, in both variants. -/
theorem C6_witness :
    Main.power_output 3 10 25 10000 30 = 0 ∧
    Main.power_output 3 10 25 10000 1 = 0 ∧
    Test.power_output 3 10 25 10000 14000 15 30 = 0 ∧
    Test.power_output 3 10 25 10000 14000 15 1 = 0 := by
  refine ⟨?_, ?_, ?_, ?_⟩
  · exact (C6_cutoff_zero 3 10 25 10000 14000 15 30 (by norm_num)
      (by norm_num) (by norm_num) (by norm_num)).1 (by norm_num)
  · exact (C6_cutoff_zero 3 10 25 10000 14000 15 1 (by norm_num)
      (by norm_num) (by norm_num) (by norm_num)).2.1 (by norm_num)
  · exact (C6_cutoff_zero 3 10 25 10000 14000 15 30 (by norm_num)
      (by norm_num) (by norm_num) (by norm_num)).2.2.1 (by norm_num)
  · exact (C6_cutoff_zero 3 10 25 10000 14000 15 1 (by norm_num)
      (by norm_num) (by norm_num) (by norm_num)).2.2.2 (by norm_num)

/-- Claim C10, confirmed: for a non-negative sample speed, the
three-region variant with `start_speed < rated_speed <= max_speed` and
`0 <= rated_power` outputs a power in `[0, rated_power]`, and the
five-region variant with in addition
`rated_speed <= peak_power_speed <= max_speed` and
`0 <= rated_power <= peak_power` outputs a power in `[0, peak_power]`. -/
theorem C10_power_bounds (ss rs ms rp pp pps s : ℚ)
    (hs : 0 ≤ s) (h1 : ss < rs) (h2 : rs ≤ ms) (hrp : 0 ≤ rp)
    (h3 : rs ≤ pps) (h4 : pps ≤ ms) (hpp : rp ≤ pp) :
    (0 ≤ Main.power_output ss rs ms rp s ∧
      Main.power_output ss rs ms rp s ≤ rp) ∧
    (0 ≤ Test.power_output ss rs ms rp pp pps s ∧
      Test.power_output ss rs ms rp pp pps s ≤ pp) := by
  have hpp0 : 0 ≤ pp := hrp.trans hpp
  constructor
  · unfold Main.power_output
    split_ifs with e1 e2 e3
    · exact ⟨le_refl 0, hrp⟩
    · have hr0 : 0 ≤ (s - ss) / (rs - ss) :=
        div_nonneg (by linarith [e2.1]) (by linarith)
      have hr1 : (s - ss) / (rs - ss) ≤ 1 := by
        rw [div_le_one (by linarith)]
        linarith [e2.2]
      constructor
      · exact mul_nonneg hrp (pow_nonneg hr0 3)
      · calc rp * ((s - ss) / (rs - ss)) ^ 3
            ≤ rp * 1 := mul_le_mul_of_nonneg_left (pow_le_one₀ hr0 hr1) hrp
          _ = rp := mul_one rp
    · exact ⟨hrp, le_refl rp⟩
    · exact ⟨le_refl 0, hrp⟩
  · unfold Test.power_output
    split_ifs with e1 e2 e3 e4
    · exact ⟨le_refl 0, hpp0⟩
    · have hr0 : 0 ≤ (s - ss) / (rs - ss) :=
        div_nonneg (by linarith [e2.1]) (by linarith)
      have hr1 : (s - ss) / (rs - ss) ≤ 1 := by
        rw [div_le_one (by linarith)]
        linarith [e2.2]
      constructor
      · exact mul_nonneg hpp0 (pow_nonneg hr0 3)
      · calc pp * ((s - ss) / (rs - ss)) ^ 3
            ≤ pp * 1 := mul_le_mul_of_nonneg_left (pow_le_one₀ hr0 hr1) hpp0
          _ = pp := mul_one pp
    · exact ⟨hpp0, le_refl pp⟩
    · have hlt : pps < ms := lt_of_lt_of_le e4.1 e4.2
      have hq0 : 0 ≤ (s - pps) / (ms - pps) :=
        div_nonneg (by linarith [e4.1]) (by linarith)
      have hq1 : (s - pps) / (ms - pps) ≤ 1 := by
        rw [div_le_one (by linarith)]
        linarith [e4.2]
      have hmul0 : 0 ≤ ((s - pps) / (ms - pps)) * (pp - rp) :=
        mul_nonneg hq0 (by linarith)
      have hmul1 : ((s - pps) / (ms - pps)) * (pp - rp) ≤ pp - rp :=
        mul_le_of_le_one_left (by linarith) hq1
      constructor
      · linarith
      · linarith
    · exact ⟨le_refl 0, hpp0⟩

/-- Claim C10, witness: at scenario-B parameters and speed 7 (ramp
region) both variants stay within their bounds. -/
theorem C10_witness :
    (0 ≤ Main.power_output 3 10 25 10000 7 ∧
      Main.power_output 3 10 25 10000 7 ≤ 10000) ∧
    (0 ≤ Test.power_output 3 10 25 10000 14000 15 7 ∧
      Test.power_output 3 10 25 10000 14000 15 7 ≤ 14000) := by
  exact C10_power_bounds 3 10 25 10000 14000 15 7 (by norm_num) (by norm_num)
    (by norm_num) (by norm_num) (by norm_num) (by norm_num) (by norm_num)

/-- Claim C7, confirmed: the returned power series (whenever the call
returns at all, which for the `src/test_turbine.py` variant excludes the
empty series) has exactly one entry per input sample, entry `i` being the
power of input sample `i`, in both variants. -/
theorem C7_series_shape (ws : List ℚ) (ss rs ms rp pp pps : ℚ) :
    (Main.calculate_energy ws ss rs ms rp).2.length = ws.length ∧
    (∀ i : Nat,
      (Main.calculate_energy ws ss rs ms rp).2[i]? =
        (ws[i]?).map (Main.power_output ss rs ms rp)) ∧
    (∀ r, Test.calculate_energy ws ss rs ms rp pp pps = some r →
      r.2.length = ws.length ∧
      ∀ i : Nat, r.2[i]? =
        (ws[i]?).map (Test.power_output ss rs ms rp pp pps)) := by
  refine ⟨?_, ?_, ?_⟩
  · simp [Main.calculate_energy]
  · intro i
    simp [Main.calculate_energy]
  · intro r hr
    by_cases hw : ws.length = 0
    · simp [Test.calculate_energy, hw] at hr
    · simp only [Test.calculate_energy, if_neg hw, Option.some.injEq] at hr
      rw [← hr]
      constructor
      · simp
      · intro i
        simp

/-- Claim C7, witness for the hypothesis-bearing part: the test variant on
the two-sample series `[12, 20]` returns a two-entry power series whose
entries are the powers of the respective samples. -/
theorem C7_witness :
    ((13 : ℚ), [(14000 : ℚ), 12000]).2.length = [(12 : ℚ), 20].length ∧
    ∀ i : Nat,
      ((13 : ℚ), [(14000 : ℚ), 12000]).2[i]? =
      (([(12 : ℚ), 20])[i]?).map (Test.power_output 3 10 25 10000 14000 15) := by
  exact (C7_series_shape [12, 20] 3 10 25 10000 14000 15).2.2
    ((13 : ℚ), [(14000 : ℚ), 12000])
    (by norm_num [Test.calculate_energy, Test.power_output])

lemma main_power_smul (k ss rs ms rp s : ℚ) :
    Main.power_output ss rs ms (k * rp) s = k * Main.power_output ss rs ms rp s := by
  unfold Main.power_output
  split_ifs <;> ring

lemma test_power_smul (k ss rs ms rp pp pps s : ℚ) :
    Test.power_output ss rs ms (k * rp) (k * pp) pps s =
      k * Test.power_output ss rs ms rp pp pps s := by
  unfold Test.power_output
  split_ifs <;> ring

lemma sum_map_scaled (k ti : ℚ) (l : List ℚ) (f g : ℚ → ℚ) (h : ∀ a, f a = k * g a) :
    (l.map (fun a => f a * ti)).sum = k * (l.map (fun a => g a * ti)).sum := by
  induction l with
  | nil => simp
  | cons x xs ih =>
    rw [List.map_cons, List.map_cons, List.sum_cons, List.sum_cons, ih, h]
    ring

/-- Claim C8, confirmed: with the speeds fixed, multiplying the power
parameters (`rated_power` in the three-region variant; `rated_power` and
`peak_power` in the peak variant) by a constant `k` multiplies every
entry of the returned power series and the total energy by `k`. -/
theorem C8_scale_invariance (k : ℚ) (ws : List ℚ) (ss rs ms rp pp pps : ℚ) :
    (Main.calculate_energy ws ss rs ms (k * rp)).1 =
      k * (Main.calculate_energy ws ss rs ms rp).1 ∧
    (Main.calculate_energy ws ss rs ms (k * rp)).2 =
      (Main.calculate_energy ws ss rs ms rp).2.map (fun p => k * p) ∧
    Test.calculate_energy ws ss rs ms (k * rp) (k * pp) pps =
      Option.map (fun r => (k * r.1, r.2.map (fun p => k * p)))
        (Test.calculate_energy ws ss rs ms rp pp pps) := by
  have hpm : ∀ a, Main.power_output ss rs ms (k * rp) a =
      k * Main.power_output ss rs ms rp a :=
    fun a => main_power_smul k ss rs ms rp a
  have hpt : ∀ a, Test.power_output ss rs ms (k * rp) (k * pp) pps a =
      k * Test.power_output ss rs ms rp pp pps a :=
    fun a => test_power_smul k ss rs ms rp pp pps a
  refine ⟨?_, ?_, ?_⟩
  · simp only [Main.calculate_energy, List.map_map, Function.comp_def]
    rw [sum_map_scaled k 1 ws _ _ hpm]
  · simp only [Main.calculate_energy, List.map_map, Function.comp_def]
    exact List.map_congr_left fun a _ => hpm a
  · by_cases hw : ws.length = 0
    · simp [Test.calculate_energy, hw]
    · simp only [Test.calculate_energy, if_neg hw, Option.map_some]
      refine congrArg some (Prod.ext ?_ ?_)
      · simp only [List.map_map, Function.comp_def]
        rw [sum_map_scaled k (1 / (ws.length : ℚ)) ws _ _ hpt]
        ring
      · simp only [List.map_map, Function.comp_def]
        exact List.map_congr_left fun a _ => hpt a

/-- Claim C1, counterexample: on the one-sample series `[20]` with the
scenario-B profile, the `src/test_turbine.py` variant returns total
energy 12, while the sum of power times interval (interval = 1/1 here) is
12000: the code additionally divides by 1000, so `totalEnergy` is not the
claimed sum for this variant. -/
theorem C1_counterexample :
    Test.calculate_energy [20] 3 10 25 10000 14000 15 = some (12, [12000]) ∧
    (12 : ℚ) ≠ 12000 * 1 := by
  constructor
  · norm_num [Test.calculate_energy, Test.power_output]
  · norm_num

/-- Claim C1, amended: for the `src/main.py` variant (interval fixed at
one hour) the total energy equals the sum of per-sample power times 1,
and a constant series of length n at power P gives `n * P * 1`; the
`src/test_turbine.py` variant instead returns `(Σ power_i * (1/n)) /
1000`, the extra division by 1000 being its kWh conversion. -/
theorem C1_energy_additivity (ws : List ℚ) (ss rs ms rp pp pps : ℚ) :
    (Main.calculate_energy ws ss rs ms rp).1 =
      ((Main.calculate_energy ws ss rs ms rp).2.map (fun p => p * 1)).sum ∧
    (∀ n : Nat, ∀ s : ℚ,
      (Main.calculate_energy (List.replicate n s) ss rs ms rp).1 =
        (n : ℚ) * Main.power_output ss rs ms rp s * 1) ∧
    (∀ r, Test.calculate_energy ws ss rs ms rp pp pps = some r →
      r.1 = ((r.2.map (fun p => p * (1 / (ws.length : ℚ)))).sum) / 1000) := by
  refine ⟨rfl, ?_, ?_⟩
  · intro n s
    simp only [Main.calculate_energy, List.map_replicate, List.sum_replicate,
      nsmul_eq_mul]
    ring
  · intro r hr
    by_cases hw : ws.length = 0
    · simp [Test.calculate_energy, hw] at hr
    · simp only [Test.calculate_energy, if_neg hw, Option.some.injEq] at hr
      rw [← hr]

/-- Claim C1, witness for the hypothesis-bearing part: on `[10]` the test
variant returns total 14 and series `[14000]`, and 14 is indeed
`(14000 * (1/1)) / 1000`. -/
theorem C1_witness :
    ((14 : ℚ), [(14000 : ℚ)]).1 =
      ((((14 : ℚ), [(14000 : ℚ)]).2.map
        (fun p => p * (1 / (([(10 : ℚ)].length : ℕ) : ℚ)))).sum) / 1000 := by
  exact (C1_energy_additivity [10] 3 10 25 10000 14000 15).2.2
    ((14 : ℚ), [(14000 : ℚ)])
    (by norm_num [Test.calculate_energy, Test.power_output])

/-- Claim C9, confirmed: the operational embedding of the per-sample loop
(which carries the input series inside its state, so mutation would be
observable) finishes with the input series unchanged, and its
accumulators equal the pure `calculate_energy` of the initial inputs —
the result is a function of the argument values alone, so identical
inputs give identical outputs; this holds for both variants. -/
theorem C9_pure_no_mutation (ws : List ℚ) (ss rs ms rp pp pps : ℚ) :
    (execLoop (Main.power_output ss rs ms rp) 1 ws.length
        ⟨ws, 0, [], 0⟩).wind_speeds = ws ∧
    ((execLoop (Main.power_output ss rs ms rp) 1 ws.length
        ⟨ws, 0, [], 0⟩).energy,
      (execLoop (Main.power_output ss rs ms rp) 1 ws.length
        ⟨ws, 0, [], 0⟩).power_generation) =
      Main.calculate_energy ws ss rs ms rp ∧
    (execLoop (Test.power_output ss rs ms rp pp pps) (1 / (ws.length : ℚ))
        ws.length ⟨ws, 0, [], 0⟩).wind_speeds = ws ∧
    (ws ≠ [] →
      Test.calculate_energy ws ss rs ms rp pp pps =
        some ((execLoop (Test.power_output ss rs ms rp pp pps)
            (1 / (ws.length : ℚ)) ws.length ⟨ws, 0, [], 0⟩).energy / 1000,
          (execLoop (Test.power_output ss rs ms rp pp pps)
            (1 / (ws.length : ℚ)) ws.length ⟨ws, 0, [], 0⟩).power_generation)) := by
  have hmain := execLoop_invariant (Main.power_output ss rs ms rp) 1 ws
    ws.length 0 [] 0 (by omega)
  have htest := execLoop_invariant (Test.power_output ss rs ms rp pp pps)
    (1 / (ws.length : ℚ)) ws ws.length 0 [] 0 (by omega)
  rw [List.drop_zero] at hmain htest
  refine ⟨?_, ?_, ?_, ?_⟩
  · rw [hmain]
  · rw [hmain]
    simp [Main.calculate_energy]
  · rw [htest]
  · intro hne
    have hw : ¬ ws.length = 0 := by
      simpa [List.length_eq_zero] using hne
    rw [htest]
    simp [Test.calculate_energy, hw, hne]

/-- Claim C9, witness for the hypothesis-bearing part: on the nonempty
series `[10]` the test variant agrees with its loop embedding. -/
theorem C9_witness :
    Test.calculate_energy [10] 3 10 25 10000 14000 15 =
      some ((execLoop (Test.power_output 3 10 25 10000 14000 15)
          (1 / (([(10 : ℚ)].length : ℕ) : ℚ)) [(10 : ℚ)].length
          ⟨[10], 0, [], 0⟩).energy / 1000,
        (execLoop (Test.power_output 3 10 25 10000 14000 15)
          (1 / (([(10 : ℚ)].length : ℕ) : ℚ)) [(10 : ℚ)].length
          ⟨[10], 0, [], 0⟩).power_generation) := by
  exact (C9_pure_no_mutation [10] 3 10 25 10000 14000 15).2.2.2 (by simp)

end WindTurbine
